import Mathlib

/-!
Shallow embedding of the NEXNews dual-store ingestion & retrieval pipeline
(src/app/config.py, classifier.py, embeddings.py, collector.py, api.py).

Modelling conventions:
* The Relational Store (SQLite table of articles) is a `List Article`;
  the unique index on `url` is the membership test performed at commit time,
  and the auto-increment primary key is a `nextId` counter in the state.
* The Vector Index (ChromaDB collection) is a `List EmbRecord`; ChromaDB ids
  are `str(article_id)`, an injective image of the integer id, so ids are
  kept as `Nat`.
* The OpenAI embedder is an oracle `embed : String → List ℚ`; `[]` is the
  failure signal (`create_embedding` returns `[]` on any exception).
* The OpenAI classifier call outcome is an oracle value
  `Except Unit String`: `.error` models a raised exception,
  `.ok c` the category string the model produced.
* The ChromaDB nearest-neighbour answer to a query is an oracle
  `List QueryHit` (ids, distances and metadata in the order the index
  returns them); its properties (at most `n_results` hits, sorted by
  distance) enter theorems as hypotheses.
* Embedder/classifier invocations are counted explicitly where a claim
  speaks about the number of adapter calls.
-/

namespace NEXNews

/-- Fixed category enumeration from `Settings.news_categories` (config.py). -/
def newsCategories : List String :=
  ["Cybersecurity",
   "Artificial Intelligence & Emerging Tech",
   "Software & Development",
   "Hardware & Devices",
   "Tech Industry & Business",
   "Other"]

/-- Article row of the `articles` table (database.py).  `category` and
`summary` are nullable columns; timestamps are abstracted to `Nat`. -/
structure Article where
  id : Nat
  title : String
  url : String
  summary : Option String
  source : String
  category : Option String
  publishedDate : Option Nat
deriving DecidableEq, Repr

/-- Metadata snapshot stored with an embedding (embeddings.py, add_article). -/
structure Metadata where
  title : String
  category : Option String
  source : String
deriving DecidableEq, Repr

/-- One ChromaDB record: id, embedding vector, metadata, truncated document. -/
structure EmbRecord where
  id : Nat
  embedding : List ℚ
  metadata : Metadata
  document : String
deriving DecidableEq, Repr

/-- `ClassificationService.classify_article` (classifier.py, non-mock path):
on an adapter exception it returns the literal fallback category; a returned
category outside `settings.news_categories` is replaced by the same fallback. -/
def classifyArticle (adapterResult : Except Unit String) : String :=
  match adapterResult with
  | .error _ => "Software & Development"
  | .ok category =>
      if newsCategories.contains category then category
      else "Software & Development"

/-- `EmbeddingService.create_embedding`: the text is truncated to 8000
characters before the adapter call; a failure is the empty list. -/
def createEmbedding (embed : String → List ℚ) (text : String) : List ℚ :=
  embed (text.take 8000)

/-- `EmbeddingService.add_article`: presence check first (idempotence), then
one embedder call; on an empty vector nothing is stored.  Returns the new
index together with the number of embedder invocations (0 or 1). -/
def addArticle (embed : String → List ℚ) (idx : List EmbRecord)
    (articleId : Nat) (title summary : String) (category : Option String)
    (source : String) : List EmbRecord × Nat :=
  let text := title ++ ". " ++ summary
  if idx.any (fun r => r.id == articleId) then
    (idx, 0)
  else
    let embedding := createEmbedding embed text
    if embedding = [] then
      (idx, 1)
    else
      (idx ++ [{ id := articleId, embedding := embedding,
                 metadata := { title := title.take 200, category := category,
                               source := source },
                 document := text.take 1000 }], 1)

/-- One hit as returned by `collection.query`: id, distance, metadata. -/
structure QueryHit where
  id : Nat
  dist : ℚ
  meta : Metadata
deriving DecidableEq, Repr

/-- One formatted match of `EmbeddingService.search`. -/
structure SearchMatch where
  articleId : Nat
  score : ℚ
  metadata : Metadata
deriving DecidableEq, Repr

/-- `EmbeddingService.search`: embed the query (empty result on failure),
then map each returned distance to `score = 1 - distance`, keeping the
order of the index.  `qres` is the oracle answer of `collection.query` for this
query (already restricted to `n_results = limit` and the category filter). -/
def searchEmbService (embed : String → List ℚ) (qres : List QueryHit)
    (query : String) : List SearchMatch :=
  let queryEmbedding := createEmbedding embed query
  if queryEmbedding = [] then []
  else qres.map (fun h => { articleId := h.id, score := 1 - h.dist,
                            metadata := h.meta })

/-- Python truthiness of an optional string (`if not request.prompt: ...`):
`None` and the empty string are falsy. -/
def truthy : Option String → Bool
  | none => false
  | some s => !(s == "")

/-- Body of `SearchRequest` (api.py); `limit` is a Python int. -/
structure SearchRequest where
  prompt : Option String
  category : Option String
  limit : Int
deriving DecidableEq, Repr

/-- Outcome of `search_news`: HTTP 400 (InvalidRequest) or a result payload
`{count, articles, search_type}`. -/
inductive SearchOutcome where
  | invalidRequest
  | ok (count : Nat) (articles : List Article) (searchType : String)
deriving DecidableEq, Repr

/-- Hydration loop of `search_news`: for each match, in order, fetch the
Article by id; a missing id contributes nothing. -/
def hydrate (store : List Article) (results : List SearchMatch) :
    List Article :=
  results.filterMap (fun m => store.find? (fun a => a.id == m.articleId))

/-- `search_news` (api.py): the two validation checks, then semantic mode
when the prompt is truthy, else the category-only query with
`.limit(request.limit)`. -/
def searchNews (embed : String → List ℚ) (qres : List QueryHit)
    (store : List Article) (req : SearchRequest) : SearchOutcome :=
  if !truthy req.prompt && !truthy req.category then
    .invalidRequest
  else if truthy req.category &&
      !(newsCategories.contains (req.category.getD "")) then
    .invalidRequest
  else if truthy req.prompt then
    let results := searchEmbService embed qres (req.prompt.getD "")
    let articles := hydrate store results
    .ok articles.length articles "semantic"
  else
    let articles :=
      (store.filter (fun a => a.category == req.category)).take req.limit.toNat
    .ok articles.length articles "category"

/-- Raw article tuple handed over by `collect_from_rss`. -/
structure RawArticle where
  title : String
  url : String
  summary : String
  source : String
  publishedDate : Option Nat
deriving DecidableEq, Repr

/-- Per-item oracle for one pass of the save loop: the outcome of the classifier call for this article, and whether the relational commit fails for a
reason other than the URL uniqueness constraint. -/
structure ItemEnv where
  classifierResult : Except Unit String
  storeFault : Bool
deriving Repr

/-- State threaded through `NewsCollector.save_articles`: both stores, the
auto-increment counter, the running saved count and adapter-call counters. -/
structure SaveState where
  store : List Article
  nextId : Nat
  index : List EmbRecord
  savedCount : Nat
  classifierCalls : Nat
  embedderCalls : Nat
deriving DecidableEq, Repr

/-- The state change of a loop iteration that hit an exception after the
classifier call: `session.rollback()` leaves both stores and the saved
count exactly as they were; only the classifier-call counter has grown. -/
def incClassifier (s : SaveState) : SaveState :=
  { s with classifierCalls := s.classifierCalls + 1 }

/-- One iteration of the loop in `save_articles` (collector.py): classify
first, then attempt the insert (an existing URL raises `IntegrityError` at
commit, a store fault any other exception; both are rolled back and
skipped), then count the save and call `add_article`. -/
def saveOne (embed : String → List ℚ) (s : SaveState)
    (item : RawArticle × ItemEnv) : SaveState :=
  let category := classifyArticle item.2.classifierResult
  let s1 := incClassifier s
  if s1.store.any (fun a => a.url == item.1.url) then
    s1
  else if item.2.storeFault then
    s1
  else
    let article : Article :=
      { id := s1.nextId, title := item.1.title, url := item.1.url,
        summary := some item.1.summary, source := item.1.source,
        category := some category, publishedDate := item.1.publishedDate }
    let res := addArticle embed s1.index article.id item.1.title
        item.1.summary (some category) item.1.source
    { store := s1.store ++ [article], nextId := s1.nextId + 1,
      index := res.1, savedCount := s1.savedCount + 1,
      classifierCalls := s1.classifierCalls,
      embedderCalls := s1.embedderCalls + res.2 }

/-- `NewsCollector.save_articles`: the whole batch, item by item. -/
def saveArticles (embed : String → List ℚ)
    (batch : List (RawArticle × ItemEnv)) (s : SaveState) : SaveState :=
  batch.foldl (saveOne embed) s

/-- One iteration of the loop in `sync_missing_embeddings`: `existing` is
the snapshot of index ids taken before the loop; a missing article is
counted and handed to `add_article` against the evolving index. -/
def syncStep (embed : String → List ℚ) (existing : List Nat)
    (acc : List EmbRecord × Nat) (a : Article) : List EmbRecord × Nat :=
  if existing.contains a.id then acc
  else ((addArticle embed acc.1 a.id a.title (a.summary.getD "")
          a.category a.source).1, acc.2 + 1)

/-- `EmbeddingService.sync_missing_embeddings` (embeddings.py): walk all
articles, re-embed those whose id is absent from the index snapshot.  The
Python function has no return statement — the recomputed count is only
logged — so the returned value is modelled as `none`. -/
def syncMissingEmbeddings (embed : String → List ℚ) (store : List Article)
    (idx : List EmbRecord) : List EmbRecord × Option Nat :=
  let existing := idx.map (fun r => r.id)
  let res := store.foldl (syncStep embed existing) (idx, 0)
  (res.1, none)

/-- A classifier-adapter outcome that `classify_article` treats as a
failure: a raised exception, or a category outside the enumeration. -/
def classifierFails (e : Except Unit String) : Prop :=
  e = .error () ∨ ∃ c, e = .ok c ∧ newsCategories.contains c = false

/-- The Article row built by a successful iteration of `save_articles`:
the category is assigned from the classifier result computed before the
insert, so the row is complete at commit time. -/
def articleOf (s : SaveState) (item : RawArticle × ItemEnv) : Article :=
  { id := s.nextId, title := item.1.title, url := item.1.url,
    summary := some item.1.summary, source := item.1.source,
    category := some (classifyArticle item.2.classifierResult),
    publishedDate := item.1.publishedDate }

/-! ## Basic lemmas about the embedding-insert and save-loop steps -/

lemma addArticle_of_present (embed : String → List ℚ) (idx : List EmbRecord)
    (aId : Nat) (t s : String) (c : Option String) (src : String)
    (h : idx.any (fun r => r.id == aId) = true) :
    addArticle embed idx aId t s c src = (idx, 0) := by
  simp [addArticle, h]

lemma addArticle_snd_of_absent (embed : String → List ℚ)
    (idx : List EmbRecord) (aId : Nat) (t s : String) (c : Option String)
    (src : String) (h : idx.any (fun r => r.id == aId) = false) :
    (addArticle embed idx aId t s c src).2 = 1 := by
  simp only [addArticle, h, Bool.false_eq_true, if_false]
  split <;> rfl

lemma addArticle_fst_of_absent (embed : String → List ℚ)
    (idx : List EmbRecord) (aId : Nat) (t s : String) (c : Option String)
    (src : String) (habs : idx.any (fun r => r.id == aId) = false)
    (hok : createEmbedding embed (t ++ ". " ++ s) ≠ []) :
    (addArticle embed idx aId t s c src).1
      = idx ++ [{ id := aId,
                  embedding := createEmbedding embed (t ++ ". " ++ s),
                  metadata := { title := t.take 200, category := c,
                                source := src },
                  document := (t ++ ". " ++ s).take 1000 }] := by
  simp [addArticle, habs, hok]

lemma saveOne_of_dup (embed : String → List ℚ) (s : SaveState)
    (item : RawArticle × ItemEnv)
    (hdup : s.store.any (fun a => a.url == item.1.url) = true) :
    saveOne embed s item = incClassifier s := by
  simp [saveOne, incClassifier] at hdup ⊢
  simp [hdup]

lemma saveOne_of_fail (embed : String → List ℚ) (s : SaveState)
    (item : RawArticle × ItemEnv)
    (h : s.store.any (fun a => a.url == item.1.url) = true
         ∨ item.2.storeFault = true) :
    saveOne embed s item = incClassifier s := by
  rcases h with h | h
  · exact saveOne_of_dup embed s item h
  · by_cases hdup : s.store.any (fun a => a.url == item.1.url) = true
    · exact saveOne_of_dup embed s item hdup
    · simp only [Bool.not_eq_true] at hdup
      simp [saveOne, incClassifier, hdup, h]

lemma saveOne_of_fresh (embed : String → List ℚ) (s : SaveState)
    (item : RawArticle × ItemEnv)
    (hdup : s.store.any (fun a => a.url == item.1.url) = false)
    (hf : item.2.storeFault = false) :
    saveOne embed s item =
      { store := s.store ++ [articleOf s item], nextId := s.nextId + 1,
        index := (addArticle embed s.index s.nextId item.1.title
            item.1.summary
            (some (classifyArticle item.2.classifierResult))
            item.1.source).1,
        savedCount := s.savedCount + 1,
        classifierCalls := s.classifierCalls + 1,
        embedderCalls := s.embedderCalls +
          (addArticle embed s.index s.nextId item.1.title item.1.summary
            (some (classifyArticle item.2.classifierResult))
            item.1.source).2 } := by
  simp [saveOne, incClassifier, articleOf, hdup, hf]

/-! ## C1: deduplication of an already-present URL -/

/-- C1 (counterexample): a batch containing one article whose URL is
already in the Relational Store leaves both stores and the saved count
unchanged and performs no embedding call — but, contrary to the claim,
the classifier is invoked for the duplicate (`save_articles` classifies
before the insert attempt), so the classifier-call count is not zero. -/
theorem c1_dedupe_counterexample :
    (saveArticles (fun _ => [(1 : ℚ)])
      [({ title := "t2", url := "u", summary := "sum", source := "src2",
          publishedDate := none },
        { classifierResult := Except.ok "Other", storeFault := false })]
      { store := [{ id := 1, title := "t", url := "u", summary := some "s",
                    source := "src", category := some "Other",
                    publishedDate := none }],
        nextId := 2, index := [], savedCount := 0, classifierCalls := 0,
        embedderCalls := 0 }).store
      = [{ id := 1, title := "t", url := "u", summary := some "s",
           source := "src", category := some "Other",
           publishedDate := none }]
    ∧ (saveArticles (fun _ => [(1 : ℚ)])
      [({ title := "t2", url := "u", summary := "sum", source := "src2",
          publishedDate := none },
        { classifierResult := Except.ok "Other", storeFault := false })]
      { store := [{ id := 1, title := "t", url := "u", summary := some "s",
                    source := "src", category := some "Other",
                    publishedDate := none }],
        nextId := 2, index := [], savedCount := 0, classifierCalls := 0,
        embedderCalls := 0 }).index = []
    ∧ (saveArticles (fun _ => [(1 : ℚ)])
      [({ title := "t2", url := "u", summary := "sum", source := "src2",
          publishedDate := none },
        { classifierResult := Except.ok "Other", storeFault := false })]
      { store := [{ id := 1, title := "t", url := "u", summary := some "s",
                    source := "src", category := some "Other",
                    publishedDate := none }],
        nextId := 2, index := [], savedCount := 0, classifierCalls := 0,
        embedderCalls := 0 }).savedCount = 0
    ∧ (saveArticles (fun _ => [(1 : ℚ)])
      [({ title := "t2", url := "u", summary := "sum", source := "src2",
          publishedDate := none },
        { classifierResult := Except.ok "Other", storeFault := false })]
      { store := [{ id := 1, title := "t", url := "u", summary := some "s",
                    source := "src", category := some "Other",
                    publishedDate := none }],
        nextId := 2, index := [], savedCount := 0, classifierCalls := 0,
        embedderCalls := 0 }).embedderCalls = 0
    ∧ ¬ (saveArticles (fun _ => [(1 : ℚ)])
      [({ title := "t2", url := "u", summary := "sum", source := "src2",
          publishedDate := none },
        { classifierResult := Except.ok "Other", storeFault := false })]
      { store := [{ id := 1, title := "t", url := "u", summary := some "s",
                    source := "src", category := some "Other",
                    publishedDate := none }],
        nextId := 2, index := [], savedCount := 0, classifierCalls := 0,
        embedderCalls := 0 }).classifierCalls = 0 := by
  decide

/-- C1 (amended): an article whose URL is already present in the
Relational Store is rejected with both stores unchanged, contributes zero
to the returned count, and triggers no embedding call — but one
classification call is performed for it (classification runs before the
insert attempt), so a URL re-presented across batches is re-classified on
every attempt; embedding calls remain at most one per stored article. -/
theorem c1_dedupe_amended (embed : String → List ℚ) (s : SaveState)
    (item : RawArticle × ItemEnv) (rest : List (RawArticle × ItemEnv))
    (hdup : s.store.any (fun a => a.url == item.1.url) = true) :
    saveOne embed s item = incClassifier s
    ∧ saveArticles embed (item :: rest) s
        = saveArticles embed rest (incClassifier s)
    ∧ (incClassifier s).store = s.store
    ∧ (incClassifier s).index = s.index
    ∧ (incClassifier s).savedCount = s.savedCount
    ∧ (incClassifier s).embedderCalls = s.embedderCalls
    ∧ (incClassifier s).classifierCalls = s.classifierCalls + 1 := by
  refine ⟨saveOne_of_dup embed s item hdup, ?_, rfl, rfl, rfl, rfl, rfl⟩
  simp [saveArticles, saveOne_of_dup embed s item hdup]

/-- Closed instantiation of `c1_dedupe_amended` at a concrete duplicate. -/
theorem c1_dedupe_amended_witness :
    saveOne (fun _ => [(1 : ℚ)])
      { store := [{ id := 1, title := "t", url := "u", summary := some "s",
                    source := "src", category := some "Other",
                    publishedDate := none }],
        nextId := 2, index := [], savedCount := 0, classifierCalls := 0,
        embedderCalls := 0 }
      ({ title := "t2", url := "u", summary := "sum", source := "src2",
         publishedDate := none },
       { classifierResult := Except.ok "Other", storeFault := false })
      = incClassifier
        { store := [{ id := 1, title := "t", url := "u", summary := some "s",
                      source := "src", category := some "Other",
                      publishedDate := none }],
          nextId := 2, index := [], savedCount := 0, classifierCalls := 0,
          embedderCalls := 0 } :=
  (c1_dedupe_amended (fun _ => [(1 : ℚ)])
    { store := [{ id := 1, title := "t", url := "u", summary := some "s",
                  source := "src", category := some "Other",
                  publishedDate := none }],
      nextId := 2, index := [], savedCount := 0, classifierCalls := 0,
      embedderCalls := 0 }
    ({ title := "t2", url := "u", summary := "sum", source := "src2",
       publishedDate := none },
     { classifierResult := Except.ok "Other", storeFault := false })
    [] (by decide)).1

/-! ## C3: distance-to-score conversion in semantic search -/

/-- C3 (counterexample): a hit at distance 2 — reachable under the
default squared-Euclidean metric of the index — is mapped to score
`1 - 2 = -1`, which does not lie in the interval [0,1], refuting the
claim that every returned score lies in [0,1]. -/
theorem c3_score_counterexample :
    searchEmbService (fun _ => [(1 : ℚ)])
      [{ id := 1, dist := 2,
         meta := { title := "a", category := none, source := "s" } }] "q"
      = [{ articleId := 1, score := -1,
           metadata := { title := "a", category := none, source := "s" } }]
    ∧ ¬ (0 ≤ (1 - (2 : ℚ))) := by
  constructor
  · simp only [searchEmbService, createEmbedding, List.map]
    norm_num
  · norm_num

/-- C3 (amended): when the query embedding succeeds, semantic search maps
the index hits one-to-one and in order to results carrying
`score = 1 - distance` (so nearest-first order is preserved); the score
lies in [0,1] exactly when the returned distance lies in [0,1] — for a
distance greater than 1 the score is negative, and the code applies no
clamping. -/
theorem c3_score_mapping (embed : String → List ℚ) (qres : List QueryHit)
    (query : String) (hok : createEmbedding embed query ≠ []) :
    searchEmbService embed qres query
      = qres.map (fun h => { articleId := h.id, score := 1 - h.dist,
                             metadata := h.meta })
    ∧ (searchEmbService embed qres query).map (fun m => m.articleId)
        = qres.map (fun h => h.id)
    ∧ ∀ h ∈ qres,
        ((0 : ℚ) ≤ 1 - h.dist ∧ 1 - h.dist ≤ 1) ↔
          (0 ≤ h.dist ∧ h.dist ≤ 1) := by
  refine ⟨by simp [searchEmbService, hok], ?_, ?_⟩
  · simp [searchEmbService, hok]
  · intro h _
    constructor
    · rintro ⟨h1, h2⟩
      exact ⟨by linarith, by linarith⟩
    · rintro ⟨h1, h2⟩
      exact ⟨by linarith, by linarith⟩

/-- Closed instantiation of `c3_score_mapping` at a concrete query. -/
theorem c3_score_mapping_witness :
    searchEmbService (fun _ => [(1 : ℚ)])
      [{ id := 7, dist := 0,
         meta := { title := "a", category := none, source := "s" } }] "q"
      = [{ articleId := 7, score := 1,
           metadata := { title := "a", category := none, source := "s" } }] := by
  have h := (c3_score_mapping (fun _ => [(1 : ℚ)])
    [{ id := 7, dist := 0,
       meta := { title := "a", category := none, source := "s" } }] "q"
    (by decide)).1
  rw [h]
  simp only [List.map]
  norm_num

/-! ## C4: idempotent embedding insert -/

/-- C4: the embedding insert is idempotent: if a record for the
identifier is already present the index is returned unchanged with zero
embedder invocations (the presence check runs before the embedding is
computed); consequently inserting twice for the same identifier from a
fresh index leaves exactly one record for that identifier, and the second
call is a no-op with no embedder invocation. -/
theorem c4_addArticle_idempotent (embed : String → List ℚ)
    (idx : List EmbRecord) (aId : Nat) (t s : String) (c : Option String)
    (src : String) (hnew : ∀ r ∈ idx, r.id ≠ aId)
    (hok : createEmbedding embed (t ++ ". " ++ s) ≠ []) :
    (∀ idx2 : List EmbRecord, (∃ r ∈ idx2, r.id = aId) →
        addArticle embed idx2 aId t s c src = (idx2, 0))
    ∧ addArticle embed (addArticle embed idx aId t s c src).1 aId t s c src
        = ((addArticle embed idx aId t s c src).1, 0)
    ∧ ((addArticle embed idx aId t s c src).1.countP
        (fun r => r.id == aId)) = 1 := by
  have habs : idx.any (fun r => r.id == aId) = false := by
    simp only [List.any_eq_false]
    intro r hr
    simpa using hnew r hr
  have hpresent : ∀ idx2 : List EmbRecord, (∃ r ∈ idx2, r.id = aId) →
      addArticle embed idx2 aId t s c src = (idx2, 0) := by
    intro idx2 ⟨r, hr, hid⟩
    apply addArticle_of_present
    simp only [List.any_eq_true]
    exact ⟨r, hr, by simpa using hid⟩
  have hfst := addArticle_fst_of_absent embed idx aId t s c src habs hok
  refine ⟨hpresent, ?_, ?_⟩
  · apply hpresent
    rw [hfst]
    refine ⟨_, List.mem_append_right _ (List.mem_singleton_self _), rfl⟩
  · rw [hfst, List.countP_append]
    have h0 : idx.countP (fun r => r.id == aId) = 0 := by
      simp only [List.countP_eq_zero]
      intro r hr
      simpa using hnew r hr
    simp [h0]

/-- Closed instantiation of `c4_addArticle_idempotent` on an empty index. -/
theorem c4_addArticle_idempotent_witness :
    ((addArticle (fun _ => [(1 : ℚ)]) [] 5 "t" "s" (some "Other")
        "src").1.countP (fun r => r.id == 5)) = 1 :=
  (c4_addArticle_idempotent (fun _ => [(1 : ℚ)]) [] 5 "t" "s"
    (some "Other") "src" (by simp) (by decide)).2.2

/-! ## C5: request validation in search_news -/

/-- C5 (counterexample): the empty string is outside the fixed category
enumeration, yet a request with a non-empty prompt and `category = ""` is
not rejected: the enumeration check is guarded by Python truthiness
(`if request.category and ...`), and an empty string is falsy, so the
request proceeds to the semantic branch. -/
theorem c5_validation_counterexample :
    newsCategories.contains "" = false
    ∧ searchNews (fun _ => [(1 : ℚ)]) [] []
        { prompt := some "x", category := some "", limit := 10 }
        ≠ .invalidRequest
    ∧ searchNews (fun _ => [(1 : ℚ)]) [] []
        { prompt := some "x", category := some "", limit := 10 }
        = .ok 0 [] "semantic" := by
  refine ⟨by decide, ?_, by decide⟩
  decide

/-- C5 (amended): `search_news` rejects a request exactly when prompt and
category are both absent-or-empty, or the category is a non-empty string
outside the fixed enumeration; every other request passes both checks
(which inspect only the request, not the stores or adapters).  An
empty-string prompt or category counts as absent, so an empty-string
category — though outside the enumeration — is not rejected. -/
theorem c5_validation_amended (embed : String → List ℚ)
    (qres : List QueryHit) (store : List Article) (req : SearchRequest) :
    searchNews embed qres store req = .invalidRequest ↔
      ((truthy req.prompt = false ∧ truthy req.category = false) ∨
       (truthy req.category = true ∧
        newsCategories.contains (req.category.getD "") = false)) := by
  cases hp : truthy req.prompt <;> cases hc : truthy req.category <;>
    simp only [searchNews, hp, hc, Bool.not_false, Bool.not_true,
      Bool.true_and, Bool.false_and, Bool.and_false, Bool.and_true,
      if_true, if_false, Bool.true_eq_false, Bool.false_eq_true]
  · simp
  · cases hm : newsCategories.contains (req.category.getD "") <;> simp [hm]
  · simp
  · cases hm : newsCategories.contains (req.category.getD "") <;> simp [hm]

/-! ## C7: query-embedding failure degrades to an empty result -/

/-- C7: in semantic mode, if embedding the prompt fails (the embedder
returns the empty failure signal, which is also what `create_embedding`
produces when the adapter raises), the service returns no matches and
`search_news` answers with a well-formed empty result instead of an
error. -/
theorem c7_embed_failure_empty (embed : String → List ℚ)
    (qres : List QueryHit) (store : List Article) (req : SearchRequest)
    (hprompt : truthy req.prompt = true)
    (hcat : truthy req.category = true →
      newsCategories.contains (req.category.getD "") = true)
    (hfail : createEmbedding embed (req.prompt.getD "") = []) :
    searchEmbService embed qres (req.prompt.getD "") = []
    ∧ searchNews embed qres store req = .ok 0 [] "semantic" := by
  have hsvc : searchEmbService embed qres (req.prompt.getD "") = [] := by
    simp [searchEmbService, hfail]
  refine ⟨hsvc, ?_⟩
  cases hc : truthy req.category
  · simp [searchNews, hprompt, hc, hsvc, hydrate]
  · have hmem : req.category.getD "" ∈ newsCategories := by
      simpa using hcat hc
    simp [searchNews, hprompt, hc, hmem, hsvc, hydrate]

/-- Closed instantiation of `c7_embed_failure_empty` with an embedder
that always fails. -/
theorem c7_embed_failure_empty_witness :
    searchNews (fun _ => ([] : List ℚ))
      [{ id := 1, dist := 0,
         meta := { title := "a", category := none, source := "s" } }]
      [{ id := 1, title := "t", url := "u", summary := some "s",
         source := "src", category := some "Other", publishedDate := none }]
      { prompt := some "zero day", category := none, limit := 5 }
      = .ok 0 [] "semantic" :=
  (c7_embed_failure_empty (fun _ => ([] : List ℚ))
    [{ id := 1, dist := 0,
       meta := { title := "a", category := none, source := "s" } }]
    [{ id := 1, title := "t", url := "u", summary := some "s",
       source := "src", category := some "Other", publishedDate := none }]
    { prompt := some "zero day", category := none, limit := 5 }
    (by decide) (by intro h; cases h) rfl).2

/-! ## C6: classifier failure falls back, embedder still invoked once -/

lemma classifyArticle_of_fails (e : Except Unit String)
    (h : classifierFails e) :
    classifyArticle e = "Software & Development" := by
  rcases h with h | ⟨c, hc, hmem⟩
  · subst h; rfl
  · subst hc
    simp only [classifyArticle]
    rw [hmem]
    simp

lemma saveOne_store_mem (embed : String → List ℚ) (s : SaveState)
    (item : RawArticle × ItemEnv) :
    ∀ a ∈ (saveOne embed s item).store, a ∈ s.store ∨
      a.category = some (classifyArticle item.2.classifierResult) := by
  intro a ha
  by_cases hdup : s.store.any (fun x => x.url == item.1.url) = true
  · rw [saveOne_of_dup embed s item hdup] at ha
    exact Or.inl ha
  · simp only [Bool.not_eq_true] at hdup
    cases hf : item.2.storeFault
    · rw [saveOne_of_fresh embed s item hdup hf] at ha
      simp only [List.mem_append, List.mem_singleton] at ha
      rcases ha with ha | ha
      · exact Or.inl ha
      · subst ha; exact Or.inr rfl
    · rw [saveOne_of_fail embed s item (Or.inr hf)] at ha
      exact Or.inl ha

lemma saveArticles_store_fallback (embed : String → List ℚ) :
    ∀ (batch : List (RawArticle × ItemEnv)) (s0 : SaveState),
      (∀ p ∈ batch, classifierFails p.2.classifierResult) →
      ∀ a ∈ (saveArticles embed batch s0).store,
        a ∈ s0.store ∨ a.category = some "Software & Development" := by
  intro batch
  induction batch with
  | nil => intro s0 _ a ha; exact Or.inl ha
  | cons item rest ih =>
      intro s0 hfail a ha
      have hrest : ∀ p ∈ rest, classifierFails p.2.classifierResult :=
        fun p hp => hfail p (List.mem_cons_of_mem _ hp)
      have hstep := ih (saveOne embed s0 item) hrest a ha
      rcases hstep with hstep | hstep
      · rcases saveOne_store_mem embed s0 item a hstep with h1 | h1
        · exact Or.inl h1
        · right
          rw [h1, classifyArticle_of_fails _
            (hfail item (List.mem_cons_self _ _))]
      · exact Or.inr hstep

/-- C6: for every ingested article whose classifier call fails (raises or
returns an out-of-enumeration value) the stored row carries the fallback
category "Software & Development" instead of a propagated failure, and the
embedder is still invoked exactly once for the freshly inserted article;
under a classifier that fails for the whole batch, every newly stored
article ends up with the fallback category. -/
theorem c6_classifier_fallback (embed : String → List ℚ)
    (batch : List (RawArticle × ItemEnv)) (s0 : SaveState)
    (hfail : ∀ p ∈ batch, classifierFails p.2.classifierResult) :
    (∀ a ∈ (saveArticles embed batch s0).store,
        a ∈ s0.store ∨ a.category = some "Software & Development")
    ∧ (∀ (raw : RawArticle) (env : ItemEnv) (s : SaveState),
        classifierFails env.classifierResult →
        s.store.any (fun a => a.url == raw.url) = false →
        env.storeFault = false →
        s.index.any (fun r => r.id == s.nextId) = false →
        (saveOne embed s (raw, env)).embedderCalls = s.embedderCalls + 1
        ∧ (saveOne embed s (raw, env)).store
            = s.store ++
              [{ id := s.nextId, title := raw.title, url := raw.url,
                 summary := some raw.summary, source := raw.source,
                 category := some "Software & Development",
                 publishedDate := raw.publishedDate }]) := by
  refine ⟨saveArticles_store_fallback embed batch s0 hfail, ?_⟩
  intro raw env s hfails hdup hsf hidx
  have hfresh := saveOne_of_fresh embed s (raw, env) hdup hsf
  have hcat := classifyArticle_of_fails _ hfails
  constructor
  · rw [hfresh]
    simp only
    rw [addArticle_snd_of_absent embed s.index s.nextId raw.title
      raw.summary (some (classifyArticle env.classifierResult))
      raw.source hidx]
  · rw [hfresh]
    simp [articleOf, hcat]

/-- Closed instantiation of `c6_classifier_fallback`: a one-article batch
with a raising classifier stub; the single stored article carries the
fallback category. -/
theorem c6_classifier_fallback_witness :
    ({ id := 1, title := "t", url := "u", summary := some "s",
       source := "src", category := some "Software & Development",
       publishedDate := none } : Article) ∈ ([] : List Article)
    ∨ ({ id := 1, title := "t", url := "u", summary := some "s",
         source := "src", category := some "Software & Development",
         publishedDate := none } : Article).category
        = some "Software & Development" :=
  (c6_classifier_fallback (fun _ => [(1 : ℚ)])
    [({ title := "t", url := "u", summary := "s", source := "src",
        publishedDate := none },
      { classifierResult := Except.error (), storeFault := false })]
    { store := [], nextId := 1, index := [], savedCount := 0,
      classifierCalls := 0, embedderCalls := 0 }
    (by intro p hp; simp at hp; rw [hp]; exact Or.inl rfl)).1
    { id := 1, title := "t", url := "u", summary := some "s",
      source := "src", category := some "Software & Development",
      publishedDate := none }
    (by decide)

/-! ## C9: per-item failure isolation in the ingestion batch -/

/-- C9: a failing item — duplicate URL raising at commit, or any other
store-write fault — does not abort the batch: the state after the failing
item equals the state before it in both stores and the saved count (its
changes are rolled back; only the classifier-call counter has moved), and
the remaining items are processed from that state, so the batch result is
exactly the fold over the rest. -/
theorem c9_batch_isolation (embed : String → List ℚ)
    (pre post : List (RawArticle × ItemEnv)) (bad : RawArticle × ItemEnv)
    (s0 : SaveState)
    (hfail : (saveArticles embed pre s0).store.any
        (fun a => a.url == bad.1.url) = true
      ∨ bad.2.storeFault = true) :
    saveArticles embed (pre ++ bad :: post) s0
      = saveArticles embed post (incClassifier (saveArticles embed pre s0))
    ∧ (incClassifier (saveArticles embed pre s0)).store
        = (saveArticles embed pre s0).store
    ∧ (incClassifier (saveArticles embed pre s0)).index
        = (saveArticles embed pre s0).index
    ∧ (incClassifier (saveArticles embed pre s0)).savedCount
        = (saveArticles embed pre s0).savedCount := by
  refine ⟨?_, rfl, rfl, rfl⟩
  have h1 : saveArticles embed (pre ++ bad :: post) s0
      = saveArticles embed (bad :: post) (saveArticles embed pre s0) := by
    simp [saveArticles, List.foldl_append]
  rw [h1]
  show saveArticles embed post
      (saveOne embed (saveArticles embed pre s0) bad) = _
  rw [saveOne_of_fail embed (saveArticles embed pre s0) bad hfail]

/-- Closed instantiation of `c9_batch_isolation`: a duplicate in the
middle of a batch does not stop the article after it from being saved. -/
theorem c9_batch_isolation_witness :
    saveArticles (fun _ => [(1 : ℚ)])
      ([] ++ ({ title := "t2", url := "u", summary := "s2",
                source := "src2", publishedDate := none },
              { classifierResult := Except.ok "Other",
                storeFault := false }) ::
        [({ title := "t3", url := "u3", summary := "s3", source := "src3",
            publishedDate := none },
          { classifierResult := Except.ok "Other", storeFault := false })])
      { store := [{ id := 1, title := "t", url := "u", summary := some "s",
                    source := "src", category := some "Other",
                    publishedDate := none }],
        nextId := 2, index := [], savedCount := 0, classifierCalls := 0,
        embedderCalls := 0 }
      = saveArticles (fun _ => [(1 : ℚ)])
        [({ title := "t3", url := "u3", summary := "s3", source := "src3",
            publishedDate := none },
          { classifierResult := Except.ok "Other", storeFault := false })]
        (incClassifier (saveArticles (fun _ => [(1 : ℚ)]) []
          { store := [{ id := 1, title := "t", url := "u",
                        summary := some "s", source := "src",
                        category := some "Other", publishedDate := none }],
            nextId := 2, index := [], savedCount := 0, classifierCalls := 0,
            embedderCalls := 0 })) :=
  (c9_batch_isolation (fun _ => [(1 : ℚ)]) []
    [({ title := "t3", url := "u3", summary := "s3", source := "src3",
        publishedDate := none },
      { classifierResult := Except.ok "Other", storeFault := false })]
    ({ title := "t2", url := "u", summary := "s2", source := "src2",
       publishedDate := none },
     { classifierResult := Except.ok "Other", storeFault := false })
    { store := [{ id := 1, title := "t", url := "u", summary := some "s",
                  source := "src", category := some "Other",
                  publishedDate := none }],
      nextId := 2, index := [], savedCount := 0, classifierCalls := 0,
      embedderCalls := 0 }
    (Or.inl (by decide))).1

/-! ## C10: inserted articles always carry a non-null category -/

lemma classifyArticle_mem (e : Except Unit String) :
    classifyArticle e ∈ newsCategories := by
  cases e with
  | error u =>
      have h : classifyArticle (Except.error u) = "Software & Development" :=
        rfl
      rw [h]; decide
  | ok c =>
      simp only [classifyArticle]
      cases hm : newsCategories.contains c
      · rw [if_neg (by simp [hm])]; decide
      · rw [if_pos (by simp [hm])]
        simp at hm
        exact hm

lemma saveArticles_store_category (embed : String → List ℚ) :
    ∀ (batch : List (RawArticle × ItemEnv)) (s0 : SaveState),
      ∀ a ∈ (saveArticles embed batch s0).store,
        a ∈ s0.store ∨
          (a.category ≠ none ∧ a.category.getD "" ∈ newsCategories) := by
  intro batch
  induction batch with
  | nil => intro s0 a ha; exact Or.inl ha
  | cons item rest ih =>
      intro s0 a ha
      rcases ih (saveOne embed s0 item) a ha with hstep | hstep
      · rcases saveOne_store_mem embed s0 item a hstep with h1 | h1
        · exact Or.inl h1
        · refine Or.inr ⟨by rw [h1]; simp, ?_⟩
          rw [h1]
          simpa using classifyArticle_mem item.2.classifierResult
      · exact Or.inr hstep

/-- C10: every article the pipeline inserts carries a non-null category
(in fact a member of the fixed enumeration) at the moment of insertion:
the successful branch of the save loop commits a row whose category field
is already filled with the classification computed before the insert
attempt, so the degraded null-category state is never produced. -/
theorem c10_category_nonnull (embed : String → List ℚ)
    (batch : List (RawArticle × ItemEnv)) (s0 : SaveState) :
    (∀ a ∈ (saveArticles embed batch s0).store,
        a ∈ s0.store ∨
          (a.category ≠ none ∧ a.category.getD "" ∈ newsCategories))
    ∧ (∀ (raw : RawArticle) (env : ItemEnv) (s : SaveState),
        s.store.any (fun a => a.url == raw.url) = false →
        env.storeFault = false →
        (saveOne embed s (raw, env)).store
          = s.store ++
            [{ id := s.nextId, title := raw.title, url := raw.url,
               summary := some raw.summary, source := raw.source,
               category := some (classifyArticle env.classifierResult),
               publishedDate := raw.publishedDate }]) := by
  refine ⟨saveArticles_store_category embed batch s0, ?_⟩
  intro raw env s hdup hsf
  rw [saveOne_of_fresh embed s (raw, env) hdup hsf]
  simp [articleOf]

/-- Closed instantiation of `c10_category_nonnull` on a one-article batch
from an empty store. -/
theorem c10_category_nonnull_witness :
    ∀ a ∈ (saveArticles (fun _ => [(1 : ℚ)])
      [({ title := "t", url := "u", summary := "s", source := "src",
          publishedDate := none },
        { classifierResult := Except.ok "Cybersecurity",
          storeFault := false })]
      { store := [], nextId := 1, index := [], savedCount := 0,
        classifierCalls := 0, embedderCalls := 0 }).store,
      a ∈ ([] : List Article) ∨
        (a.category ≠ none ∧ a.category.getD "" ∈ newsCategories) :=
  (c10_category_nonnull (fun _ => [(1 : ℚ)])
    [({ title := "t", url := "u", summary := "s", source := "src",
        publishedDate := none },
      { classifierResult := Except.ok "Cybersecurity",
        storeFault := false })]
    { store := [], nextId := 1, index := [], savedCount := 0,
      classifierCalls := 0, embedderCalls := 0 }).1

/-! ## C8: result bound and hydration order in search -/

lemma find?_id_eq {store : List Article} {i : Nat} {a : Article}
    (h : store.find? (fun x => x.id == i) = some a) : a.id = i := by
  have := List.find?_some h
  simpa using this

lemma hydrate_ids_sublist (store : List Article)
    (results : List SearchMatch) :
    List.Sublist ((hydrate store results).map (fun a => a.id))
      (results.map (fun m => m.articleId)) := by
  induction results with
  | nil => simp [hydrate]
  | cons m rest ih =>
      cases h : store.find? (fun x => x.id == m.articleId) with
      | none =>
          simp only [hydrate, List.filterMap_cons, h, List.map_cons]
          exact (ih).cons _
      | some a =>
          simp only [hydrate, List.filterMap_cons, h, List.map_cons]
          rw [find?_id_eq h]
          exact (ih).cons₂ _

lemma hydrate_mem_store {store : List Article} {results : List SearchMatch}
    {a : Article} (h : a ∈ hydrate store results) : a ∈ store := by
  simp only [hydrate, List.mem_filterMap] at h
  obtain ⟨m, _, hfind⟩ := h
  exact List.mem_of_find?_eq_some hfind

lemma hydrate_complete {store : List Article} {results : List SearchMatch}
    {m : SearchMatch} {b : Article} (hm : m ∈ results) (hb : b ∈ store)
    (hid : b.id = m.articleId) :
    ∃ a ∈ hydrate store results, a.id = m.articleId := by
  have hsome : (store.find? (fun x => x.id == m.articleId)).isSome := by
    rw [List.find?_isSome]
    exact ⟨b, hb, by simpa using hid⟩
  obtain ⟨a, ha⟩ := Option.isSome_iff_exists.mp hsome
  refine ⟨a, ?_, find?_id_eq ha⟩
  simp only [hydrate, List.mem_filterMap]
  exact ⟨m, hm, ha⟩

lemma hydrate_length_le (store : List Article)
    (results : List SearchMatch) :
    (hydrate store results).length ≤ results.length :=
  List.length_filterMap_le _ _

lemma searchEmbService_length_le (embed : String → List ℚ)
    (qres : List QueryHit) (query : String) :
    (searchEmbService embed qres query).length ≤ qres.length := by
  simp only [searchEmbService]
  split
  · simp
  · simp

/-- C8: `search_news` returns at most `limit` hydrated articles, and the
reported count is the number of articles actually hydrated.  In semantic
mode the response is exactly the hydration, in index order, of the
matches the service produced: the returned ids form an order-preserving
sublist of the ids the Vector Index returned, each returned article comes
from the Relational Store, and a match is dropped only when no stored
article has its id. -/
theorem c8_result_bound (embed : String → List ℚ) (qres : List QueryHit)
    (store : List Article) (req : SearchRequest) (k : Nat)
    (hk : req.limit = (k : Int)) (hkpos : 0 < k)
    (hq : qres.length ≤ k) :
    (∀ cnt arts ty, searchNews embed qres store req = .ok cnt arts ty →
        cnt = arts.length ∧ arts.length ≤ k)
    ∧ (truthy req.prompt = true →
       (truthy req.category = true →
         newsCategories.contains (req.category.getD "") = true) →
       searchNews embed qres store req
         = .ok (hydrate store
             (searchEmbService embed qres (req.prompt.getD ""))).length
           (hydrate store
             (searchEmbService embed qres (req.prompt.getD ""))) "semantic"
       ∧ List.Sublist
           ((hydrate store
             (searchEmbService embed qres (req.prompt.getD ""))).map
               (fun a => a.id))
           ((searchEmbService embed qres (req.prompt.getD "")).map
               (fun m => m.articleId))
       ∧ (∀ a ∈ hydrate store
             (searchEmbService embed qres (req.prompt.getD "")), a ∈ store)
       ∧ (∀ m ∈ searchEmbService embed qres (req.prompt.getD ""),
           (∃ b ∈ store, b.id = m.articleId) →
           ∃ a ∈ hydrate store
               (searchEmbService embed qres (req.prompt.getD "")),
             a.id = m.articleId)) := by
  have hsem_len : (hydrate store
      (searchEmbService embed qres (req.prompt.getD ""))).length ≤ k :=
    le_trans (hydrate_length_le _ _)
      (le_trans (searchEmbService_length_le _ _ _) hq)
  constructor
  · intro cnt arts ty h
    simp only [searchNews] at h
    split at h
    · cases h
    · split at h
      · cases h
      · split at h
        · rw [SearchOutcome.ok.injEq] at h
          obtain ⟨h1, h2, _⟩ := h
          subst h2
          exact ⟨h1.symm, hsem_len⟩
        · rw [SearchOutcome.ok.injEq] at h
          obtain ⟨h1, h2, _⟩ := h
          subst h2
          refine ⟨h1.symm, ?_⟩
          calc ((store.filter
                (fun a => a.category == req.category)).take
                  req.limit.toNat).length
              ≤ req.limit.toNat := by
                simp [List.length_take_le]
            _ = k := by rw [hk]; exact Int.toNat_ofNat k
  · intro hp hcat
    have hout : searchNews embed qres store req
        = .ok (hydrate store
            (searchEmbService embed qres (req.prompt.getD ""))).length
          (hydrate store
            (searchEmbService embed qres (req.prompt.getD ""))) "semantic" := by
      cases hc : truthy req.category
      · simp [searchNews, hp, hc]
      · have hmem : req.category.getD "" ∈ newsCategories := by
          simpa using hcat hc
        simp [searchNews, hp, hc, hmem]
    refine ⟨hout, hydrate_ids_sublist _ _,
      fun a ha => hydrate_mem_store ha, ?_⟩
    intro m hm ⟨b, hb, hid⟩
    exact hydrate_complete hm hb hid

/-- Closed instantiation of `c8_result_bound`: two index hits, one of
which has no stored article and is dropped, giving one hydrated result
within the limit of 3. -/
theorem c8_result_bound_witness :
    (1 : Nat) = ([({ id := 1, title := "t", url := "u",
                     summary := some "s", source := "src",
                     category := some "Other",
                     publishedDate := none } : Article)]).length
    ∧ ([({ id := 1, title := "t", url := "u", summary := some "s",
           source := "src", category := some "Other",
           publishedDate := none } : Article)]).length ≤ 3 :=
  (c8_result_bound (fun _ => [(1 : ℚ)])
    [{ id := 1, dist := 0,
       meta := { title := "a", category := none, source := "s" } },
     { id := 9, dist := 0,
       meta := { title := "b", category := none, source := "s" } }]
    [{ id := 1, title := "t", url := "u", summary := some "s",
       source := "src", category := some "Other", publishedDate := none }]
    { prompt := some "x", category := none, limit := 3 } 3
    rfl (by decide) (by decide)).1 1
    [{ id := 1, title := "t", url := "u", summary := some "s",
       source := "src", category := some "Other", publishedDate := none }]
    "semantic" (by decide)

/-! ## C2: reconciliation convergence -/

lemma syncFold_ids (embed : String → List ℚ) (hemb : ∀ t, embed t ≠ []) :
    ∀ (store : List Article) (acc : List EmbRecord) (k : Nat),
      (store.map (fun a => a.id)).Nodup →
      (∀ a ∈ store, ∀ r ∈ acc, r.id ≠ a.id) →
      ((store.foldl (syncStep embed []) (acc, k)).1).map (fun r => r.id)
        = acc.map (fun r => r.id) ++ store.map (fun a => a.id) := by
  intro store
  induction store with
  | nil => intro acc k _ _; simp
  | cons a rest ih =>
      intro acc k hnodup hfresh
      have habs : acc.any (fun r => r.id == a.id) = false := by
        simp only [List.any_eq_false]
        intro r hr
        simpa using hfresh a (List.mem_cons_self _ _) r hr
      have hok : createEmbedding embed
          (a.title ++ ". " ++ a.summary.getD "") ≠ [] := hemb _
      have hstep : syncStep embed [] (acc, k) a
          = (acc ++
              [{ id := a.id,
                 embedding := createEmbedding embed
                   (a.title ++ ". " ++ a.summary.getD ""),
                 metadata := { title := a.title.take 200,
                               category := a.category,
                               source := a.source },
                 document :=
                  (a.title ++ ". " ++ a.summary.getD "").take 1000 }],
             k + 1) := by
        simp only [syncStep, List.contains, List.elem_nil,
          Bool.false_eq_true, if_false]
        rw [addArticle_fst_of_absent embed acc a.id a.title
          (a.summary.getD "") a.category a.source habs hok]
      rw [List.foldl_cons, hstep]
      have hnodup2 : (rest.map (fun x => x.id)).Nodup := by
        simp only [List.map_cons, List.nodup_cons] at hnodup
        exact hnodup.2
      have hnotin : a.id ∉ rest.map (fun x => x.id) := by
        simp only [List.map_cons, List.nodup_cons] at hnodup
        exact hnodup.1
      have hfresh2 : ∀ b ∈ rest, ∀ r ∈ acc ++
          [{ id := a.id,
             embedding := createEmbedding embed
               (a.title ++ ". " ++ a.summary.getD ""),
             metadata := { title := a.title.take 200,
                           category := a.category, source := a.source },
             document :=
              (a.title ++ ". " ++ a.summary.getD "").take 1000 }],
          r.id ≠ b.id := by
        intro b hb r hr
        rcases List.mem_append.mp hr with hr | hr
        · exact hfresh b (List.mem_cons_of_mem _ hb) r hr
        · rw [List.mem_singleton] at hr
          subst hr
          show a.id ≠ b.id
          intro hcontra
          apply hnotin
          rw [hcontra]
          exact List.mem_map_of_mem (fun x => x.id) hb
      rw [ih _ (k + 1) hnodup2 hfresh2]
      simp

lemma syncFold_present (embed : String → List ℚ) (existing : List Nat) :
    ∀ (store : List Article) (acc : List EmbRecord × Nat),
      (∀ a ∈ store, existing.contains a.id = true) →
      store.foldl (syncStep embed existing) acc = acc := by
  intro store
  induction store with
  | nil => intro acc _; rfl
  | cons a rest ih =>
      intro acc hpresent
      rw [List.foldl_cons]
      have hstep : syncStep embed existing acc a = acc := by
        have hp : a.id ∈ existing := by
          simpa using hpresent a (List.mem_cons_self _ _)
        simp [syncStep, hp]
      rw [hstep]
      exact ih acc (fun b hb => hpresent b (List.mem_cons_of_mem _ hb))

/-- C2 (counterexample): with one article in the Relational Store, an
empty Vector Index and a succeeding embedder, the reconciler creates the
one missing Embedding Record but does not return 1 — the function has no
return statement, so its returned value is `none` rather than the
recomputed count the claim requires. -/
theorem c2_reconcile_counterexample :
    (syncMissingEmbeddings (fun _ => [(1 : ℚ)])
        [{ id := 1, title := "t", url := "u", summary := some "s",
           source := "src", category := some "Other",
           publishedDate := none }] []).1.length = 1
    ∧ (syncMissingEmbeddings (fun _ => [(1 : ℚ)])
        [{ id := 1, title := "t", url := "u", summary := some "s",
           source := "src", category := some "Other",
           publishedDate := none }] []).2 ≠ some 1 := by
  constructor
  · decide
  · decide

/-- C2 (amended): starting from N articles with distinct identifiers and
an empty Vector Index, with an embedder that always succeeds, one
reconciler call creates exactly N Embedding Records — one per stored
article identifier, in store order — and an immediately following call
creates none; but neither call returns the recomputed count: the function
returns no value (`none`), only logging the count. -/
theorem c2_reconcile_amended (embed : String → List ℚ)
    (store : List Article) (hemb : ∀ t, embed t ≠ [])
    (hnodup : (store.map (fun a => a.id)).Nodup) :
    ((syncMissingEmbeddings embed store []).1).map (fun r => r.id)
      = store.map (fun a => a.id)
    ∧ (syncMissingEmbeddings embed store []).1.length = store.length
    ∧ (syncMissingEmbeddings embed store []).2 = none
    ∧ syncMissingEmbeddings embed store
        (syncMissingEmbeddings embed store []).1
      = ((syncMissingEmbeddings embed store []).1, none) := by
  have hids : ((store.foldl (syncStep embed []) ([], 0)).1).map
      (fun r => r.id) = store.map (fun a => a.id) := by
    have h := syncFold_ids embed hemb store [] 0 hnodup
      (by intro a _ r hr; cases hr)
    simpa using h
  have hfirst : ((syncMissingEmbeddings embed store []).1).map
      (fun r => r.id) = store.map (fun a => a.id) := by
    simp only [syncMissingEmbeddings, List.map_nil]
    exact hids
  refine ⟨hfirst, ?_, rfl, ?_⟩
  · have := congrArg List.length hfirst
    simpa using this
  · have hpresent : ∀ a ∈ store,
        (((syncMissingEmbeddings embed store []).1).map
          (fun r => r.id)).contains a.id = true := by
      intro a ha
      rw [hfirst]
      simp only [List.contains, List.elem_iff]
      exact List.mem_map_of_mem (fun x => x.id) ha
    have hfold := syncFold_present embed
      (((syncMissingEmbeddings embed store []).1).map (fun r => r.id))
      store ((syncMissingEmbeddings embed store []).1, 0) hpresent
    show ((store.foldl (syncStep embed
        (((syncMissingEmbeddings embed store []).1).map (fun r => r.id)))
        ((syncMissingEmbeddings embed store []).1, 0)).1, none)
      = ((syncMissingEmbeddings embed store []).1, none)
    rw [hfold]

/-- Closed instantiation of `c2_reconcile_amended` at a two-article
store. -/
theorem c2_reconcile_amended_witness :
    ((syncMissingEmbeddings (fun _ => [(1 : ℚ)])
        [{ id := 1, title := "t", url := "u", summary := some "s",
           source := "src", category := some "Other",
           publishedDate := none },
         { id := 2, title := "t2", url := "u2", summary := none,
           source := "src", category := some "Cybersecurity",
           publishedDate := none }] []).1).map (fun r => r.id)
      = [1, 2] :=
  by
    have h := (c2_reconcile_amended (fun _ => [(1 : ℚ)])
      [{ id := 1, title := "t", url := "u", summary := some "s",
         source := "src", category := some "Other",
         publishedDate := none },
       { id := 2, title := "t2", url := "u2", summary := none,
         source := "src", category := some "Cybersecurity",
         publishedDate := none }]
      (fun _ => List.cons_ne_nil _ _) (by decide)).1
    rw [h]
    decide

end NEXNews
